import Mathlib

/-!
Verification of the Dynamic Weather Dashboard (src/script.js) against its
natural-language specification.

Shallow embedding conventions:
* JavaScript numbers are modelled as exact rationals (ℚ); `Math.round` is
  modelled by `jsRound` below (round half toward positive infinity, which is
  JavaScript's behaviour).
* The calendar-day key that `groupForecastByDay` derives via
  `new Date(item.dt * 1000).toDateString()` depends on the runtime's local
  time zone; it is modelled as an explicit parameter `dk : ℤ → ℤ` mapping an
  epoch-second timestamp to a day key (two samples fall in the same group iff
  their keys are equal).  All grouping theorems are proved for every such `dk`.
* The insertion-ordered JavaScript object `dailyData` is modelled as an
  association list to which new keys are appended at the end, which is exactly
  the enumeration order `Object.values` uses for non-index string keys.
-/

namespace WeatherDash

/-- One weather condition object as delivered by the provider
(`item.weather[0]` in script.js): main text, description, icon code. -/
structure WeatherCond where
  main : String
  description : String
  icon : String
deriving DecidableEq, Repr

/-- One 3-hour forecast sample from the provider's forecast list
(an element of `data.list` in `updateForecastUI`/`groupForecastByDay`). -/
structure RawSample where
  dt : ℤ
  temp : ℚ
  humidity : ℚ
  windSpeed : ℚ
  weather : WeatherCond
deriving DecidableEq, Repr

/-- JavaScript's `Math.round`: round half toward positive infinity. -/
def jsRound (x : ℚ) : ℤ := Rat.floor (x + 1/2)

/-- `Math.max(...xs)` for a list of numbers (source only applies it to
non-empty lists of temperatures; the `[]` case is never reached there). -/
def listMax : List ℚ → ℚ
  | [] => 0
  | x :: xs => xs.foldl max x

/-- `Math.min(...xs)` for a list of numbers (source only applies it to
non-empty lists of temperatures; the `[]` case is never reached there). -/
def listMin : List ℚ → ℚ
  | [] => 0
  | x :: xs => xs.foldl min x

/-- script.js `celsiusToFahrenheit`: `(celsius * 9/5) + 32`, no rounding. -/
def celsiusToFahrenheit (celsius : ℚ) : ℚ := celsius * 9 / 5 + 32

/-- script.js `fahrenheitToCelsius`: `(fahrenheit - 32) * 5/9`, no rounding. -/
def fahrenheitToCelsius (fahrenheit : ℚ) : ℚ := (fahrenheit - 32) * 5 / 9

/-- The per-day accumulator record built inside `groupForecastByDay`:
`{ date, temps, weather, humidity, windSpeed }`.  `date` keeps the timestamp
of the first sample of the day (the JS code stores that sample's `Date`). -/
structure DayAcc where
  date : ℤ
  temps : List ℚ
  weather : WeatherCond
  humidity : List ℚ
  windSpeed : List ℚ
deriving DecidableEq, Repr

/-- One aggregated day as returned by `groupForecastByDay`. -/
structure DailySummary where
  date : ℤ
  maxTemp : ℤ
  minTemp : ℤ
  weather : WeatherCond
  avgHumidity : ℤ
  avgWindSpeed : ℤ
deriving DecidableEq, Repr

/-- The `push` steps of `groupForecastByDay`'s loop body: append the sample's
temperature, humidity and wind speed to the day's accumulator arrays. -/
def pushSample (d : DayAcc) (s : RawSample) : DayAcc :=
  { d with temps := d.temps ++ [s.temp],
           humidity := d.humidity ++ [s.humidity],
           windSpeed := d.windSpeed ++ [s.windSpeed] }

/-- The fresh accumulator created when a day key is seen for the first time,
after the loop body's pushes have run on it (`new Date(...)`, the sample's
`weather[0]`, and singleton arrays). -/
def newDayAcc (s : RawSample) : DayAcc :=
  { date := s.dt, temps := [s.temp], weather := s.weather,
    humidity := [s.humidity], windSpeed := [s.windSpeed] }

/-- One iteration of the `forecastList.forEach` loop in `groupForecastByDay`,
on the insertion-ordered map `dailyData` modelled as an association list:
if the sample's day key is present, push onto that entry, otherwise append a
fresh entry at the end. -/
def upsert (dk : ℤ → ℤ) (acc : List (ℤ × DayAcc)) (s : RawSample) :
    List (ℤ × DayAcc) :=
  let k := dk s.dt
  if k ∈ acc.map Prod.fst then
    acc.map (fun p => if p.1 = k then (p.1, pushSample p.2 s) else p)
  else
    acc ++ [(k, newDayAcc s)]

/-- The fully populated `dailyData` map after the `forEach` loop of
`groupForecastByDay`, in `Object.values` enumeration (insertion) order. -/
def groupedDays (dk : ℤ → ℤ) (forecastList : List RawSample) :
    List (ℤ × DayAcc) :=
  forecastList.foldl (upsert dk) []

/-- The final `.map` of `groupForecastByDay`: min/max of the day's
temperatures rounded, rounded mean humidity, and rounded mean wind speed
converted from m/s to km/h by the factor 3.6. -/
def summarize (day : DayAcc) : DailySummary :=
  { date := day.date,
    maxTemp := jsRound (listMax day.temps),
    minTemp := jsRound (listMin day.temps),
    weather := day.weather,
    avgHumidity := jsRound (day.humidity.sum / day.humidity.length),
    avgWindSpeed := jsRound (day.windSpeed.sum / day.windSpeed.length * (3.6 : ℚ)) }

/-- script.js `groupForecastByDay`: group the forecast list by calendar day
and summarise each group, in first-encounter order. -/
def groupForecastByDay (dk : ℤ → ℤ) (forecastList : List RawSample) :
    List DailySummary :=
  (groupedDays dk forecastList).map (fun p => summarize p.2)

/-! Specification-side helpers used to characterise the grouping loop. -/

/-- Append a key at the end unless it is already present (the key order
`dailyData` accumulates). -/
def insertKey (ks : List ℤ) (k : ℤ) : List ℤ :=
  if k ∈ ks then ks else ks ++ [k]

/-- The distinct values of a list in order of first occurrence. -/
def firstOccurs (ks : List ℤ) : List ℤ := ks.foldl insertKey []

/-- The accumulator a whole group (all samples of one day, in input order)
produces: field-by-field image of the group's samples, with `date` and
`weather` taken from the group's first sample. -/
def dayAccOf (g : List RawSample) : DayAcc :=
  { date := ((g.head?).map RawSample.dt).getD 0,
    temps := g.map RawSample.temp,
    weather := ((g.head?).map RawSample.weather).getD ⟨"", "", ""⟩,
    humidity := g.map RawSample.humidity,
    windSpeed := g.map RawSample.windSpeed }

/-! Application state, orchestration and display (script.js globals,
`getWeatherByCoordinates`, `switchTemperatureUnit`, the UI update
functions, startup wiring and the auto-refresh timer). -/

/-- The `currentUnit` global: `'celsius'` or `'fahrenheit'`. -/
inductive TempUnit where
  | celsius
  | fahrenheit
deriving DecidableEq, Repr

/-- The fields of the current-conditions payload that the display logic
under scrutiny reads (`data.main.temp`, `data.main.feels_like`), stored in
Celsius (`units=metric`). -/
structure CurrentData where
  temp : ℚ
  feelsLike : ℚ
deriving DecidableEq, Repr

/-- The mutable globals of script.js relevant to fetching and display:
`currentWeatherData` (current payload plus forecast list), `currentUnit`,
and the error/loading UI state. -/
structure AppState where
  currentWeatherData : Option (CurrentData × List RawSample)
  currentUnit : TempUnit
  errorText : Option String
  loadingShown : Bool
deriving DecidableEq, Repr

/-- script.js `showError`: set the error text, show it, hide the spinner. -/
def showErrorState (st : AppState) (msg : String) : AppState :=
  { st with errorText := some msg, loadingShown := false }

/-- script.js `getWeatherByCoordinates`, with the outcomes of the two
`fetch`+parse stages passed in explicitly: the current-conditions fetch runs
first; any failure throws to the function's own `catch`, which calls
`showError`.  Only after both stages succeed is `currentWeatherData`
assigned, the UI updated, and loading/error hidden. -/
def getWeatherByCoordinates (st : AppState)
    (currentRes : Except String CurrentData)
    (forecastRes : Except String (List RawSample)) : AppState :=
  match currentRes with
  | .error _ => showErrorState st "Unable to fetch weather data. Please try again."
  | .ok cur =>
    match forecastRes with
    | .error _ => showErrorState st "Unable to fetch weather data. Please try again."
    | .ok fl =>
        { st with currentWeatherData := some (cur, fl),
                  errorText := none, loadingShown := false }

/-- script.js `switchTemperatureUnit`: early-return when the unit is
unchanged, otherwise set `currentUnit` and re-render from the stored
`currentWeatherData` (which it does not modify). -/
def switchTemperatureUnit (st : AppState) (unit : TempUnit) : AppState :=
  if st.currentUnit = unit then st else { st with currentUnit := unit }

/-- The numeric value `updateCurrentWeatherUI` renders for the current
temperature: `Math.round(data.main.temp)` — the unit selects only the
suffix character, never a conversion. -/
def currentTempDisplayValue (unit : TempUnit) (d : CurrentData) : ℤ :=
  jsRound d.temp

/-- The numeric value `updateCurrentWeatherUI` renders for feels-like:
`Math.round(data.main.feels_like)`, again with no unit conversion. -/
def feelsLikeDisplayValue (unit : TempUnit) (d : CurrentData) : ℤ :=
  jsRound d.feelsLike

/-- The unit suffix appended by `updateCurrentWeatherUI` and
`createForecastCard`. -/
def unitSuffix (unit : TempUnit) : String :=
  match unit with
  | .celsius => "°C"
  | .fahrenheit => "°F"

/-- The numeric value `createForecastCard` renders for the daily high:
`Math.round(currentUnit === 'celsius' ? forecast.maxTemp
: celsiusToFahrenheit(forecast.maxTemp))`. -/
def forecastHighDisplayValue (unit : TempUnit) (ds : DailySummary) : ℤ :=
  match unit with
  | .celsius => jsRound (ds.maxTemp : ℚ)
  | .fahrenheit => jsRound (celsiusToFahrenheit (ds.maxTemp : ℚ))

/-- The numeric value `createForecastCard` renders for the daily low. -/
def forecastLowDisplayValue (unit : TempUnit) (ds : DailySummary) : ℤ :=
  match unit with
  | .celsius => jsRound (ds.minTemp : ℚ)
  | .fahrenheit => jsRound (celsiusToFahrenheit (ds.minTemp : ℚ))

/-- script.js `isApiKeyConfigured`:
`API_CONFIG.key && API_CONFIG.key !== 'YOUR_API_KEY_HERE'` (an empty string
is falsy in JavaScript). -/
def isApiKeyConfigured (key : String) : Bool :=
  !(key = "") && !(key = "YOUR_API_KEY_HERE")

/-- What a `DOMContentLoaded` initialiser wires up / kicks off: the search,
geolocation and unit-toggle handlers, the initial `loadDefaultWeather`
fetch, and whether the configuration error message was shown. -/
structure InitEffects where
  searchWired : Bool
  locationWired : Bool
  unitToggleWired : Bool
  defaultWeatherLoaded : Bool
  configErrorShown : Bool
deriving DecidableEq, Repr

/-- The first `DOMContentLoaded` listener (script.js line 80): wires all
handlers and calls `loadDefaultWeather` unconditionally, with no
API-key check. -/
def firstInitListener : InitEffects :=
  { searchWired := true, locationWired := true, unitToggleWired := true,
    defaultWeatherLoaded := true, configErrorShown := false }

/-- The second `DOMContentLoaded` listener (script.js line 612): checks
`checkApiKeyConfiguration()` and returns early (showing the configuration
error) when the key is missing or the placeholder; otherwise wires the
handlers and loads the default weather. -/
def secondInitListener (key : String) : InitEffects :=
  if isApiKeyConfigured key then
    { searchWired := true, locationWired := true, unitToggleWired := true,
      defaultWeatherLoaded := true, configErrorShown := false }
  else
    { searchWired := false, locationWired := false, unitToggleWired := false,
      defaultWeatherLoaded := false, configErrorShown := true }

/-- Both listeners run on the same `DOMContentLoaded` event; an effect has
happened if either listener performed it. -/
def combineEffects (a b : InitEffects) : InitEffects :=
  { searchWired := a.searchWired || b.searchWired,
    locationWired := a.locationWired || b.locationWired,
    unitToggleWired := a.unitToggleWired || b.unitToggleWired,
    defaultWeatherLoaded := a.defaultWeatherLoaded || b.defaultWeatherLoaded,
    configErrorShown := a.configErrorShown || b.configErrorShown }

/-- The total effect of startup: both registered `DOMContentLoaded`
listeners run in registration order. -/
def startupEffects (key : String) : InitEffects :=
  combineEffects firstInitListener (secondInitListener key)

/-- The `currentLocation` global `{ lat: null, lon: null }`: each coordinate
is `null` (`none`) until resolved, then a number. -/
structure JsLocation where
  lat : Option ℚ
  lon : Option ℚ
deriving DecidableEq, Repr

/-- JavaScript truthiness of a number-or-null value: `null` and `0` are
falsy, every other number is truthy. -/
def jsTruthyNum : Option ℚ → Bool
  | none => false
  | some v => decide (v ≠ 0)

/-- The auto-refresh `setInterval` callback:
`if (currentLocation.lat && currentLocation.lon)` fetch for those
coordinates, else do nothing.  Returns the coordinates fetched, if any. -/
def autoRefreshTick (loc : JsLocation) : Option (ℚ × ℚ) :=
  if jsTruthyNum loc.lat && jsTruthyNum loc.lon then
    some (loc.lat.getD 0, loc.lon.getD 0)
  else
    none

/-! Concrete inputs used by the specification's worked examples. -/

/-- A weather condition whose three fields all carry the given text. -/
def wcond (m : String) : WeatherCond := ⟨m, m, m⟩

/-- A day-key function under which all samples share one calendar day. -/
def constKey : ℤ → ℤ := fun _ => 0

/-- The day-key function of a runtime whose local time zone is UTC:
epoch seconds to day number. -/
def utcDayKey : ℤ → ℤ := fun t => t / 86400

/-- Two samples of the same calendar day: conditions `rain` then `clear`
in input order, wind speeds 5 and 7 m/s (the spec's worked examples). -/
def twoSampleDay : List RawSample :=
  [⟨0, 10, 50, 5, wcond "rain"⟩, ⟨10800, 12, 60, 7, wcond "clear"⟩]

/-- Two samples of two distinct days, the later day first in input order. -/
def twoDayUnsorted : List RawSample :=
  [⟨864000, 1, 2, 3, wcond "a"⟩, ⟨0, 1, 2, 3, wcond "b"⟩]

/-- A lone sample, for the single-sample-group example. -/
def loneSample : RawSample := ⟨0, 10, 50, 5, wcond "x"⟩

/-! General lemmas about rounding and the grouping loop. -/

/-- `jsRound` agrees with the mathematical floor of `x + 1/2`. -/
theorem jsRound_eq_floor (x : ℚ) : jsRound x = Int.floor (x + 1/2) := by
  rw [jsRound, Rat.floor_def', Rat.floor_def]

/-- `jsRound` is monotone. -/
theorem jsRound_mono {x y : ℚ} (h : x ≤ y) : jsRound x ≤ jsRound y := by
  rw [jsRound_eq_floor, jsRound_eq_floor]
  exact Int.floor_le_floor (by linarith)

/-- Membership in `insertKey`. -/
theorem mem_insertKey {a k : ℤ} {ks : List ℤ} :
    a ∈ insertKey ks k ↔ a ∈ ks ∨ a = k := by
  unfold insertKey
  split
  · rename_i hk
    constructor
    · exact Or.inl
    · rintro (h | rfl)
      · exact h
      · exact hk
  · simp

/-- Membership in the `insertKey` fold, for an arbitrary start
accumulator. -/
theorem mem_foldl_insertKey (ks : List ℤ) (acc : List ℤ) (a : ℤ) :
    a ∈ ks.foldl insertKey acc ↔ a ∈ acc ∨ a ∈ ks := by
  induction ks generalizing acc with
  | nil => simp
  | cons k ks ih =>
    rw [List.foldl_cons, ih, mem_insertKey]
    simp only [List.mem_cons]
    tauto

/-- `firstOccurs` has the same members as its input. -/
theorem mem_firstOccurs {a : ℤ} {ks : List ℤ} :
    a ∈ firstOccurs ks ↔ a ∈ ks := by
  unfold firstOccurs
  rw [mem_foldl_insertKey]
  simp

/-- `insertKey` preserves the no-duplicates invariant. -/
theorem nodup_insertKey {ks : List ℤ} (h : ks.Nodup) (k : ℤ) :
    (insertKey ks k).Nodup := by
  unfold insertKey
  split
  · exact h
  · rename_i hk
    simp [List.nodup_append, h, hk]

/-- The `insertKey` fold preserves the no-duplicates invariant. -/
theorem nodup_foldl_insertKey (ks : List ℤ) (acc : List ℤ) (h : acc.Nodup) :
    (ks.foldl insertKey acc).Nodup := by
  induction ks generalizing acc with
  | nil => exact h
  | cons k ks ih => exact ih _ (nodup_insertKey h k)

/-- `firstOccurs` contains no duplicates. -/
theorem nodup_firstOccurs (ks : List ℤ) : (firstOccurs ks).Nodup :=
  nodup_foldl_insertKey ks [] List.nodup_nil

/-- Appending one key to the input of `firstOccurs`. -/
theorem firstOccurs_append (ks : List ℤ) (k : ℤ) :
    firstOccurs (ks ++ [k]) = insertKey (firstOccurs ks) k := by
  unfold firstOccurs
  rw [List.foldl_append]
  rfl

/-- `firstOccurs` has as many entries as there are distinct values. -/
theorem length_firstOccurs (ks : List ℤ) :
    (firstOccurs ks).length = ks.dedup.length := by
  have hfin : (firstOccurs ks).toFinset = ks.toFinset := by
    ext a
    simp [List.mem_toFinset, mem_firstOccurs]
  rw [← List.toFinset_card_of_nodup (nodup_firstOccurs ks), hfin,
    List.card_toFinset]

/-- A group with at least one sample, extended by one further sample of the
same day, accumulates exactly the pushed fields. -/
theorem dayAccOf_append (g : List RawSample) (x : RawSample) (h : g ≠ []) :
    dayAccOf (g ++ [x]) = pushSample (dayAccOf g) x := by
  cases g with
  | nil => exact absurd rfl h
  | cons a g' => simp [dayAccOf, pushSample]

/-- A single-sample group accumulates to exactly the fresh record the loop
creates for a new day key. -/
theorem dayAccOf_singleton (x : RawSample) : dayAccOf [x] = newDayAcc x := rfl

/-- Appending a sample keeps it in its own day's group. -/
theorem filter_key_append_self (dk : ℤ → ℤ) (l : List RawSample)
    (x : RawSample) :
    ((l ++ [x]).filter fun s => decide (dk s.dt = dk x.dt)) =
      (l.filter fun s => decide (dk s.dt = dk x.dt)) ++ [x] := by
  rw [List.filter_append]
  simp

/-- Appending a sample leaves every other day's group unchanged. -/
theorem filter_key_append_other (dk : ℤ → ℤ) (l : List RawSample)
    (x : RawSample) {k : ℤ} (h : dk x.dt ≠ k) :
    ((l ++ [x]).filter fun s => decide (dk s.dt = k)) =
      l.filter fun s => decide (dk s.dt = k) := by
  rw [List.filter_append]
  simp [h]

/-- Characterisation of the grouping loop of `groupForecastByDay`: the
`dailyData` map holds one entry per distinct day key, in first-encounter
order, and the entry for key `k` accumulates exactly the samples whose
timestamp maps to `k`, in input order. -/
theorem groupedDays_eq (dk : ℤ → ℤ) (l : List RawSample) :
    groupedDays dk l = (firstOccurs (l.map fun s => dk s.dt)).map
      (fun k => (k, dayAccOf (l.filter fun s => decide (dk s.dt = k)))) := by
  induction l using List.reverseRecOn with
  | nil => rfl
  | append_singleton l x ih =>
    have hstep : groupedDays dk (l ++ [x]) = upsert dk (groupedDays dk l) x := by
      unfold groupedDays
      rw [List.foldl_append]
      rfl
    rw [hstep, ih, List.map_append, List.map_singleton, firstOccurs_append]
    by_cases hk : dk x.dt ∈ l.map fun s => dk s.dt
    · -- the sample's day key was already present
      have hkfo : dk x.dt ∈ firstOccurs (l.map fun s => dk s.dt) :=
        mem_firstOccurs.2 hk
      have hcond : dk x.dt ∈ ((firstOccurs (l.map fun s => dk s.dt)).map
          (fun k => (k, dayAccOf (l.filter fun s => decide (dk s.dt = k))))).map
            Prod.fst := by
        rw [List.map_map]
        simpa using hkfo
      rw [upsert, if_pos hcond, List.map_map]
      have hins : insertKey (firstOccurs (l.map fun s => dk s.dt)) (dk x.dt) =
          firstOccurs (l.map fun s => dk s.dt) := by
        rw [insertKey, if_pos hkfo]
      rw [hins]
      refine List.map_congr_left ?_
      intro k hkmem
      simp only [Function.comp_apply]
      by_cases hkk : k = dk x.dt
      · have hne : l.filter (fun s => decide (dk s.dt = dk x.dt)) ≠ [] := by
          obtain ⟨s, hs, hsk⟩ := List.mem_map.1 hk
          intro hnil
          have hmem : s ∈ l.filter fun s' => decide (dk s'.dt = dk x.dt) :=
            List.mem_filter.2 ⟨hs, by simp [hsk]⟩
          rw [hnil] at hmem
          exact absurd hmem (List.not_mem_nil s)
        subst hkk
        rw [if_pos rfl, filter_key_append_self, dayAccOf_append _ _ hne]
      · have hxk : dk x.dt ≠ k := fun h => hkk h.symm
        rw [if_neg hkk, filter_key_append_other dk l x hxk]
    · -- a fresh day key: a new entry is appended at the end
      have hkfo : dk x.dt ∉ firstOccurs (l.map fun s => dk s.dt) :=
        fun h => hk (mem_firstOccurs.1 h)
      have hcond : dk x.dt ∉ ((firstOccurs (l.map fun s => dk s.dt)).map
          (fun k => (k, dayAccOf (l.filter fun s => decide (dk s.dt = k))))).map
            Prod.fst := by
        rw [List.map_map]
        simpa using hkfo
      have hins : insertKey (firstOccurs (l.map fun s => dk s.dt)) (dk x.dt) =
          firstOccurs (l.map fun s => dk s.dt) ++ [dk x.dt] := by
        rw [insertKey, if_neg hkfo]
      rw [upsert, if_neg hcond, hins, List.map_append, List.map_singleton]
      congr 1
      · refine List.map_congr_left ?_
        intro k hkmem
        have hkk : dk x.dt ≠ k := by
          intro h
          exact hkfo (h ▸ hkmem)
        rw [filter_key_append_other dk l x hkk]
      · have hnil : l.filter (fun s => decide (dk s.dt = dk x.dt)) = [] := by
          rw [List.filter_eq_nil_iff]
          intro s hs
          simp only [decide_eq_true_eq]
          intro hsk
          exact hk (List.mem_map.2 ⟨s, hs, hsk⟩)
        rw [filter_key_append_self, hnil, List.nil_append, dayAccOf_singleton]

/-- `groupForecastByDay`, fully characterised: one summary per distinct day
key in first-encounter order, each summarising exactly that day's samples in
input order. -/
theorem groupForecastByDay_eq (dk : ℤ → ℤ) (l : List RawSample) :
    groupForecastByDay dk l = (firstOccurs (l.map fun s => dk s.dt)).map
      (fun k => summarize (dayAccOf (l.filter fun s => decide (dk s.dt = k)))) := by
  unfold groupForecastByDay
  rw [groupedDays_eq, List.map_map]
  rfl

/-! Claim theorems for the converter, orchestrator, startup and timer. -/

/-- C9: for every Celsius value `c`, `fahrenheitToCelsius (celsiusToFahrenheit c)`
equals `c` — exactly, hence in particular within the tolerance 1e-9 — and no
rounding happens inside the converters (the round-trip is the identity). -/
theorem convert_roundTrip (c : ℚ) :
    fahrenheitToCelsius (celsiusToFahrenheit c) = c ∧
    |fahrenheitToCelsius (celsiusToFahrenheit c) - c| ≤ 1 / 1000000000 := by
  have h : fahrenheitToCelsius (celsiusToFahrenheit c) = c := by
    unfold fahrenheitToCelsius celsiusToFahrenheit
    ring
  refine ⟨h, ?_⟩
  rw [h, sub_self, abs_zero]
  norm_num

/-- C5: if the current-conditions fetch succeeds but the forecast fetch
fails, `getWeatherByCoordinates` fails as a whole: the stored weather
payload is left untouched and the error message is surfaced — no partial
current-only result. -/
theorem fetch_atomic_on_forecast_failure (st : AppState) (cur : CurrentData)
    (e : String) :
    (getWeatherByCoordinates st (.ok cur) (.error e)).currentWeatherData =
      st.currentWeatherData ∧
    (getWeatherByCoordinates st (.ok cur) (.error e)).errorText =
      some "Unable to fetch weather data. Please try again." :=
  ⟨rfl, rfl⟩

/-- C4 (code bug evidence): with the placeholder credential the
configuration check does report the key unconfigured, yet the first
`DOMContentLoaded` listener still wires the search and geolocation handlers
and still starts the default-weather fetch, so queries can be initiated —
contradicting the claim that a `ConfigurationError` prevents all further
queries. -/
theorem placeholderKey_does_not_block_queries :
    isApiKeyConfigured "YOUR_API_KEY_HERE" = false ∧
    (startupEffects "YOUR_API_KEY_HERE").searchWired = true ∧
    (startupEffects "YOUR_API_KEY_HERE").locationWired = true ∧
    (startupEffects "YOUR_API_KEY_HERE").defaultWeatherLoaded = true := by
  refine ⟨by decide, by decide, by decide, by decide⟩

/-- C3 (code bug evidence): with Fahrenheit active, the current-temperature
display value for a stored 25 °C is 25 (the raw Celsius number, only the
suffix changes), not the converted 77 °F the claim requires — while the
forecast-card path does convert (77 for a 25 °C daily high). A unit switch
itself never mutates the stored payload. -/
theorem currentTemp_not_converted_on_fahrenheit :
    currentTempDisplayValue .fahrenheit ⟨25, 25⟩ = 25 ∧
    jsRound (celsiusToFahrenheit 25) = 77 ∧
    currentTempDisplayValue .fahrenheit ⟨25, 25⟩ ≠ jsRound (celsiusToFahrenheit 25) ∧
    forecastHighDisplayValue .fahrenheit ⟨0, 25, 20, ⟨"", "", ""⟩, 0, 0⟩ = 77 ∧
    (∀ (st : AppState) (u : TempUnit),
      (switchTemperatureUnit st u).currentWeatherData = st.currentWeatherData) := by
  have h1 : currentTempDisplayValue .fahrenheit ⟨25, 25⟩ = 25 := by
    unfold currentTempDisplayValue
    rw [jsRound_eq_floor]
    norm_num [Int.floor_eq_iff]
  have h2 : jsRound (celsiusToFahrenheit 25) = 77 := by
    unfold celsiusToFahrenheit
    rw [jsRound_eq_floor]
    norm_num [Int.floor_eq_iff]
  have h4 : forecastHighDisplayValue .fahrenheit ⟨0, 25, 20, ⟨"", "", ""⟩, 0, 0⟩ = 77 := by
    show jsRound (celsiusToFahrenheit (((25 : ℤ) : ℚ))) = 77
    unfold celsiusToFahrenheit
    rw [jsRound_eq_floor]
    norm_num [Int.floor_eq_iff]
  refine ⟨h1, h2, by rw [h1, h2]; decide, h4, ?_⟩
  intro st u
  unfold switchTemperatureUnit
  split <;> rfl

/-- C10: the auto-refresh tick performs a fetch exactly when both the
stored latitude and the stored longitude are truthy (non-`null` and
nonzero), and then it fetches those very coordinates.  Consequently a tick
with no location resolved (`lat` is `null`) is a no-op, but so is a tick for
a legitimately resolved location whose latitude is 0 (the equator) or whose
longitude is 0 (the prime meridian), for every value of the other
coordinate: the guard tests JavaScript truthiness rather than non-null. -/
theorem autoRefresh_requires_truthy_coords :
    (∀ lat lon : Option ℚ, autoRefreshTick ⟨lat, lon⟩ ≠ none ↔
      ((∃ a : ℚ, lat = some a ∧ a ≠ 0) ∧ (∃ b : ℚ, lon = some b ∧ b ≠ 0))) ∧
    (∀ lat lon : ℚ, lat ≠ 0 → lon ≠ 0 →
      autoRefreshTick ⟨some lat, some lon⟩ = some (lat, lon)) ∧
    (∀ lon : Option ℚ, autoRefreshTick ⟨none, lon⟩ = none) ∧
    (∀ lon : ℚ, autoRefreshTick ⟨some 0, some lon⟩ = none) ∧
    (∀ lat : ℚ, autoRefreshTick ⟨some lat, some 0⟩ = none) := by
  refine ⟨?_, ?_, ?_, ?_, ?_⟩
  · intro lat lon
    cases lat with
    | none => simp [autoRefreshTick, jsTruthyNum]
    | some a =>
      cases lon with
      | none => simp [autoRefreshTick, jsTruthyNum]
      | some b =>
        by_cases ha : a = 0
        · subst ha
          simp [autoRefreshTick, jsTruthyNum]
        · by_cases hb : b = 0
          · subst hb
            simp [autoRefreshTick, jsTruthyNum, ha]
          · simp [autoRefreshTick, jsTruthyNum, ha, hb]
  · intro lat lon h1 h2
    simp [autoRefreshTick, jsTruthyNum, h1, h2]
  · intro lon
    simp [autoRefreshTick, jsTruthyNum]
  · intro lon
    simp [autoRefreshTick, jsTruthyNum]
  · intro lat
    simp [autoRefreshTick, jsTruthyNum]

/-- Witness for C10 at the concrete resolved location (40.71, -74). -/
theorem autoRefresh_requires_truthy_coords_witness :
    ((40.71 : ℚ) ≠ 0) ∧ ((-74 : ℚ) ≠ 0) ∧
    autoRefreshTick ⟨some 40.71, some (-74)⟩ = some (40.71, -74) :=
  ⟨by norm_num, by norm_num,
    autoRefresh_requires_truthy_coords.2.1 40.71 (-74) (by norm_num) (by norm_num)⟩

/-- Every day key whose group is non-empty contributes its group's summary
to the output of `groupForecastByDay`. -/
theorem summary_mem_of_group_ne_nil (dk : ℤ → ℤ) (l : List RawSample) (k : ℤ)
    (h : (l.filter fun s => decide (dk s.dt = k)) ≠ []) :
    summarize (dayAccOf (l.filter fun s => decide (dk s.dt = k))) ∈
      groupForecastByDay dk l := by
  rw [groupForecastByDay_eq]
  refine List.mem_map_of_mem _ ?_
  rw [mem_firstOccurs]
  obtain ⟨s, hs⟩ := List.exists_mem_of_ne_nil _ h
  have hmem := List.mem_filter.1 hs
  exact List.mem_map.2 ⟨s, hmem.1, by simpa using hmem.2⟩

/-- Folding `min` over a list never exceeds the start value. -/
theorem foldl_min_le (xs : List ℚ) (a : ℚ) : xs.foldl min a ≤ a := by
  induction xs generalizing a with
  | nil => exact le_refl a
  | cons x xs ih => exact le_trans (ih (min a x)) (min_le_left a x)

/-- Folding `max` over a list never drops below the start value. -/
theorem le_foldl_max (xs : List ℚ) (a : ℚ) : a ≤ xs.foldl max a := by
  induction xs generalizing a with
  | nil => exact le_refl a
  | cons x xs ih => exact le_trans (le_max_left a x) (ih (max a x))

/-- The running minimum never exceeds the running maximum. -/
theorem listMin_le_listMax (xs : List ℚ) : listMin xs ≤ listMax xs := by
  cases xs with
  | nil => exact le_refl 0
  | cons x xs => exact le_trans (foldl_min_le xs x) (le_foldl_max xs x)

/-- The grouping loop on the spec's two-sample single-day input, fully
evaluated. -/
theorem groupedDays_twoSampleDay :
    groupedDays constKey twoSampleDay =
      [(0, ⟨0, [10, 12], wcond "rain", [50, 60], [5, 7]⟩)] := by
  simp [groupedDays, upsert, newDayAcc, pushSample, twoSampleDay, constKey]

/-! Claim theorems for the forecast aggregator. -/

/-- C1: `groupForecastByDay` returns exactly one `DailySummary` per distinct
calendar day of the input: the empty input yields the empty output with no
error, the output length equals the number of distinct day keys, and the
groups partition the input — the day-by-day group sizes sum to the input
length, so no sample is dropped or double-counted. -/
theorem groupForecastByDay_one_summary_per_day (dk : ℤ → ℤ)
    (l : List RawSample) :
    groupForecastByDay dk ([] : List RawSample) = [] ∧
    (groupForecastByDay dk l).length = ((l.map fun s => dk s.dt).dedup).length ∧
    (((l.map fun s => dk s.dt).dedup).map
      (fun k => (l.filter fun s => decide (dk s.dt = k)).length)).sum = l.length := by
  refine ⟨rfl, ?_, ?_⟩
  · rw [groupForecastByDay_eq, List.length_map, length_firstOccurs]
  · have hc : ∀ k : ℤ, (l.filter fun s => decide (dk s.dt = k)).length
        = (l.map fun s => dk s.dt).count k := by
      intro k
      rw [List.count_eq_countP, List.countP_map,
        ← List.countP_eq_length_filter]
      rfl
    rw [List.map_congr_left fun k _ => hc k,
      List.sum_map_count_dedup_eq_length, List.length_map]

/-- C2: the summary of every non-empty calendar-day group carries the
rounded maximum and minimum of the group's temperatures, the rounded mean
humidity, and the rounded mean wind speed multiplied by 3.6 (the m/s-to-km/h
conversion happens during aggregation); on the spec's concrete group with
wind speeds [5, 7] m/s this yields avgWindSpeed = 22 km/h. -/
theorem summarize_group_formulas (dk : ℤ → ℤ) (l : List RawSample) (k : ℤ)
    (h : (l.filter fun s => decide (dk s.dt = k)) ≠ []) :
    (∃ ds ∈ groupForecastByDay dk l,
      ds.maxTemp = jsRound (listMax
        ((l.filter fun s => decide (dk s.dt = k)).map RawSample.temp)) ∧
      ds.minTemp = jsRound (listMin
        ((l.filter fun s => decide (dk s.dt = k)).map RawSample.temp)) ∧
      ds.avgHumidity = jsRound
        (((l.filter fun s => decide (dk s.dt = k)).map RawSample.humidity).sum /
          ((l.filter fun s => decide (dk s.dt = k)).map RawSample.humidity).length) ∧
      ds.avgWindSpeed = jsRound
        (((l.filter fun s => decide (dk s.dt = k)).map RawSample.windSpeed).sum /
          ((l.filter fun s => decide (dk s.dt = k)).map RawSample.windSpeed).length
            * (3.6 : ℚ))) ∧
    (groupForecastByDay constKey twoSampleDay).map DailySummary.avgWindSpeed
      = [22] := by
  constructor
  · exact ⟨summarize (dayAccOf (l.filter fun s => decide (dk s.dt = k))),
      summary_mem_of_group_ne_nil dk l k h, rfl, rfl, rfl, rfl⟩
  · rw [groupForecastByDay, groupedDays_twoSampleDay]
    simp only [List.map_cons, List.map_nil, summarize]
    rw [jsRound_eq_floor]
    norm_num [Int.floor_eq_iff, List.sum_cons]

/-- Witness for C2 on the spec's two-sample day (wind speeds 5 and 7). -/
theorem summarize_group_formulas_witness :
    ((twoSampleDay.filter fun s => decide (constKey s.dt = 0)) ≠ []) ∧
    (∃ ds ∈ groupForecastByDay constKey twoSampleDay,
      ds.maxTemp = jsRound (listMax
        ((twoSampleDay.filter fun s => decide (constKey s.dt = 0)).map RawSample.temp)) ∧
      ds.minTemp = jsRound (listMin
        ((twoSampleDay.filter fun s => decide (constKey s.dt = 0)).map RawSample.temp)) ∧
      ds.avgHumidity = jsRound
        (((twoSampleDay.filter fun s => decide (constKey s.dt = 0)).map RawSample.humidity).sum /
          ((twoSampleDay.filter fun s => decide (constKey s.dt = 0)).map RawSample.humidity).length) ∧
      ds.avgWindSpeed = jsRound
        (((twoSampleDay.filter fun s => decide (constKey s.dt = 0)).map RawSample.windSpeed).sum /
          ((twoSampleDay.filter fun s => decide (constKey s.dt = 0)).map RawSample.windSpeed).length
            * (3.6 : ℚ))) :=
  ⟨by decide, (summarize_group_formulas constKey twoSampleDay 0 (by decide)).1⟩

/-- C6: the representative weather condition of every non-empty calendar-day
group is that of the group's first sample in input order; on the spec's
concrete day whose samples are [rain, clear] in that order, the summary's
weather is rain. -/
theorem representative_weather_is_first (dk : ℤ → ℤ) (l : List RawSample)
    (k : ℤ) (h : (l.filter fun s => decide (dk s.dt = k)) ≠ []) :
    (∃ ds ∈ groupForecastByDay dk l,
      some ds.weather =
        ((l.filter fun s => decide (dk s.dt = k)).head?).map RawSample.weather) ∧
    (groupForecastByDay constKey twoSampleDay).map DailySummary.weather
      = [wcond "rain"] := by
  constructor
  · refine ⟨summarize (dayAccOf (l.filter fun s => decide (dk s.dt = k))),
      summary_mem_of_group_ne_nil dk l k h, ?_⟩
    cases hg : l.filter fun s => decide (dk s.dt = k) with
    | nil => exact absurd hg h
    | cons a g' => rfl
  · rw [groupForecastByDay, groupedDays_twoSampleDay]
    simp [summarize]

/-- Witness for C6 on the spec's rain-then-clear day. -/
theorem representative_weather_is_first_witness :
    ((twoSampleDay.filter fun s => decide (constKey s.dt = 0)) ≠ []) ∧
    (∃ ds ∈ groupForecastByDay constKey twoSampleDay,
      some ds.weather =
        ((twoSampleDay.filter fun s => decide (constKey s.dt = 0)).head?).map
          RawSample.weather) :=
  ⟨by decide, (representative_weather_is_first constKey twoSampleDay 0 (by decide)).1⟩

/-- C7: every summary produced by `groupForecastByDay` has
`minTemp ≤ maxTemp`, and a calendar-day group consisting of exactly one
sample yields `maxTemp = minTemp = round(that sample's temperature)`. -/
theorem maxTemp_ge_minTemp :
    (∀ (dk : ℤ → ℤ) (l : List RawSample), ∀ ds ∈ groupForecastByDay dk l,
      ds.minTemp ≤ ds.maxTemp) ∧
    (∀ (dk : ℤ → ℤ) (l : List RawSample) (k : ℤ) (s : RawSample),
      (l.filter fun s' => decide (dk s'.dt = k)) = [s] →
      ∃ ds ∈ groupForecastByDay dk l,
        ds.maxTemp = jsRound s.temp ∧ ds.minTemp = jsRound s.temp) := by
  constructor
  · intro dk l ds hds
    rw [groupForecastByDay_eq] at hds
    obtain ⟨k, hk, rfl⟩ := List.mem_map.1 hds
    exact jsRound_mono (listMin_le_listMax _)
  · intro dk l k s hs
    refine ⟨summarize (dayAccOf (l.filter fun s' => decide (dk s'.dt = k))),
      summary_mem_of_group_ne_nil dk l k (by rw [hs]; exact List.cons_ne_nil s []),
      ?_, ?_⟩
    · rw [hs]
      rfl
    · rw [hs]
      rfl

/-- Witness for C7 on a one-sample input grouped into a single day. -/
theorem maxTemp_ge_minTemp_witness :
    (([loneSample] : List RawSample).filter
        (fun s' => decide (constKey s'.dt = 0)) = [loneSample]) ∧
    (∃ ds ∈ groupForecastByDay constKey [loneSample],
      ds.maxTemp = jsRound loneSample.temp ∧ ds.minTemp = jsRound loneSample.temp) :=
  ⟨by decide, maxTemp_ge_minTemp.2 constKey [loneSample] 0 loneSample (by decide)⟩

/-- C8: `groupForecastByDay` emits the day summaries in the order in which
each day's first sample occurs in the input (`firstOccurs` order), not
re-sorted by date: on a concrete input whose later calendar day comes first,
the output dates stay in input-encounter order [864000, 0] rather than
ascending date order. -/
theorem emission_order_first_encounter (dk : ℤ → ℤ) (l : List RawSample) :
    groupForecastByDay dk l = (firstOccurs (l.map fun s => dk s.dt)).map
      (fun k => summarize (dayAccOf (l.filter fun s => decide (dk s.dt = k)))) ∧
    (groupForecastByDay utcDayKey twoDayUnsorted).map DailySummary.date
      = [864000, 0] := by
  refine ⟨groupForecastByDay_eq dk l, ?_⟩
  have h1 : groupedDays utcDayKey twoDayUnsorted
      = [(10, newDayAcc ⟨864000, 1, 2, 3, wcond "a"⟩),
         (0, newDayAcc ⟨0, 1, 2, 3, wcond "b"⟩)] := by
    simp [groupedDays, upsert, newDayAcc, pushSample, twoDayUnsorted, utcDayKey]
  rw [groupForecastByDay, h1]
  simp [summarize, newDayAcc]

end WeatherDash
